import Mathlib

/-!
Verification development for the `bevy_color_blindness` crate.

The logical core of the crate (src/lib.rs, src/plugin.rs) is shallowly
embedded here:

* `Vec3` — glam's `Vec3` as used by the crate; the crate only ever stores
  exact decimal constants in these vectors and compares or copies them
  wholesale, so components are modelled as exact rationals.
* `ColorBlindnessMode` — the 9-variant enumeration from src/lib.rs.
* `ColorBlindnessMode.percentages` — the fixed mode table from src/lib.rs.
* `ColorBlindnessMode.cycle` — the successor function from src/lib.rs
  (the Rust method mutates `self` in place; it is embedded as the pure
  function computing the new value that the Rust code assigns).
* `ColorBlindnessCamera`, `ColorBlindnessPostProcess` — the components,
  with their derived `Default` values.
* `EffectEntity` / `update_percentages` — one camera entity carrying both
  components, together with Bevy's per-system change-detection flag for
  `ColorBlindnessCamera`; `update_percentages` embeds the system of the
  same name in src/plugin.rs (its `Changed<ColorBlindnessCamera>` query
  filter becomes the `camera_changed` guard, which the run consumes).
-/

namespace BevyColorBlindness

/-- glam `Vec3` with exact rational components (the crate only stores and
copies decimal constants, so no floating-point rounding is observable). -/
structure Vec3 where
  x : ℚ
  y : ℚ
  z : ℚ
  deriving DecidableEq

/-- `Vec3::X` -/
def Vec3.X : Vec3 := ⟨1, 0, 0⟩

/-- `Vec3::Y` -/
def Vec3.Y : Vec3 := ⟨0, 1, 0⟩

/-- `Vec3::Z` -/
def Vec3.Z : Vec3 := ⟨0, 0, 1⟩

/-- `Vec3::ZERO`, which is also `Vec3::default()` -/
def Vec3.ZERO : Vec3 := ⟨0, 0, 0⟩

/-- `[a, b, c].into()` for `Vec3` -/
def Vec3.mk3 (a b c : ℚ) : Vec3 := ⟨a, b, c⟩

/-- The different modes of color blindness simulation supported
(src/lib.rs, `enum ColorBlindnessMode`). -/
inductive ColorBlindnessMode where
  | Normal
  | Protanopia
  | Protanomaly
  | Deuteranopia
  | Deuteranomaly
  | Tritanopia
  | Tritanomaly
  | Achromatopsia
  | Achromatomaly
  deriving DecidableEq, Fintype

/-- `#[derive(Default)]` with `#[default]` on `Normal`. -/
def ColorBlindnessMode.default : ColorBlindnessMode := .Normal

/-- `struct ColorBlindnessPercentages` (src/lib.rs): how to mix the RGB
channels to obtain output colors. -/
structure ColorBlindnessPercentages where
  red : Vec3
  green : Vec3
  blue : Vec3
  deriving DecidableEq

/-- `ColorBlindnessPercentages::new` -/
def ColorBlindnessPercentages.new (red green blue : Vec3) :
    ColorBlindnessPercentages :=
  ⟨red, green, blue⟩

/-- `#[derive(Default)]` on `ColorBlindnessPercentages`: every field is
`Vec3::default() = Vec3::ZERO`. -/
def ColorBlindnessPercentages.default : ColorBlindnessPercentages :=
  ⟨Vec3.ZERO, Vec3.ZERO, Vec3.ZERO⟩

/-- `ColorBlindnessMode::percentages` (src/lib.rs lines 201-248): the fixed
mode table. -/
def ColorBlindnessMode.percentages :
    ColorBlindnessMode → ColorBlindnessPercentages
  | .Normal => .new Vec3.X Vec3.Y Vec3.Z
  | .Protanopia => .new
      (.mk3 0.56667 0.43333 0.0)
      (.mk3 0.55833 0.44167 0.0)
      (.mk3 0.0 0.24167 0.75833)
  | .Protanomaly => .new
      (.mk3 0.81667 0.18333 0.0)
      (.mk3 0.33333 0.66667 0.0)
      (.mk3 0.0 0.125 0.875)
  | .Deuteranopia => .new
      (.mk3 0.625 0.375 0.0)
      (.mk3 0.70 0.30 0.0)
      (.mk3 0.0 0.30 0.70)
  | .Deuteranomaly => .new
      (.mk3 0.80 0.20 0.0)
      (.mk3 0.25833 0.74167 0.0)
      (.mk3 0.0 0.14167 0.85833)
  | .Tritanopia => .new
      (.mk3 0.95 0.5 0.0)
      (.mk3 0.0 0.43333 0.56667)
      (.mk3 0.0 0.475 0.525)
  | .Tritanomaly => .new
      (.mk3 0.96667 0.3333 0.0)
      (.mk3 0.0 0.73333 0.26667)
      (.mk3 0.0 0.18333 0.81667)
  | .Achromatopsia => .new
      (.mk3 0.299 0.587 0.114)
      (.mk3 0.299 0.587 0.114)
      (.mk3 0.299 0.587 0.114)
  | .Achromatomaly => .new
      (.mk3 0.618 0.32 0.62)
      (.mk3 0.163 0.775 0.62)
      (.mk3 0.163 0.320 0.516)

/-- `ColorBlindnessMode::cycle` (src/lib.rs lines 269-281), as the pure
successor value assigned to `*self`. -/
def ColorBlindnessMode.cycle : ColorBlindnessMode → ColorBlindnessMode
  | .Normal => .Protanopia
  | .Protanopia => .Protanomaly
  | .Protanomaly => .Deuteranopia
  | .Deuteranopia => .Deuteranomaly
  | .Deuteranomaly => .Tritanopia
  | .Tritanopia => .Tritanomaly
  | .Tritanomaly => .Achromatopsia
  | .Achromatopsia => .Achromatomaly
  | .Achromatomaly => .Normal

/-- `struct ColorBlindnessCamera` (src/lib.rs lines 296-306). -/
structure ColorBlindnessCamera where
  mode : ColorBlindnessMode
  enabled : Bool
  deriving DecidableEq

/-- `#[derive(Default)]` on `ColorBlindnessCamera`: mode defaults to
`ColorBlindnessMode::Normal` (its `#[default]` variant), `enabled` to
`false`. -/
def ColorBlindnessCamera.default : ColorBlindnessCamera :=
  ⟨ColorBlindnessMode.default, false⟩

/-- `struct ColorBlindnessPostProcess` (src/plugin.rs lines 39-42): the
uniform component extracted to the render world. -/
structure ColorBlindnessPostProcess where
  percentages : ColorBlindnessPercentages
  deriving DecidableEq

/-- `#[derive(Default)]` on `ColorBlindnessPostProcess`. -/
def ColorBlindnessPostProcess.default : ColorBlindnessPostProcess :=
  ⟨ColorBlindnessPercentages.default⟩

/-- The effective mode computed inside `update_percentages`
(src/plugin.rs lines 346-350): `camera.mode` when enabled, otherwise
`ColorBlindnessMode::Normal`. -/
def effective_mode (camera : ColorBlindnessCamera) : ColorBlindnessMode :=
  if camera.enabled then camera.mode else ColorBlindnessMode.Normal

/-- One camera entity carrying a `ColorBlindnessCamera` and its paired
`ColorBlindnessPostProcess`, together with Bevy's change-detection flag
for the camera component as observed by the `update_percentages` system
(its `Changed<ColorBlindnessCamera>` query filter). -/
structure EffectEntity where
  camera : ColorBlindnessCamera
  camera_changed : Bool
  post_process : ColorBlindnessPostProcess
  deriving DecidableEq

/-- The `update_percentages` system (src/plugin.rs lines 339-354): the
entity is in the query only when `ColorBlindnessCamera` is marked changed;
in that case the system writes `mode.percentages()` of the effective mode
into the post-process component, and change-detection no longer reports
the camera as changed on the system's next run. -/
def update_percentages (e : EffectEntity) : EffectEntity :=
  if e.camera_changed then
    { e with
      post_process := ⟨(effective_mode e.camera).percentages⟩
      camera_changed := false }
  else e

/-- Spawning a camera entity with both components at their `Default`
values; Bevy reports a freshly inserted component as changed, so the
flag starts `true`. -/
def spawn_default : EffectEntity :=
  { camera := ColorBlindnessCamera.default
    camera_changed := true
    post_process := ColorBlindnessPostProcess.default }

/-- External mutation `camera.mode = m` (spec §6 Mutate); a `DerefMut`
write marks the component changed. -/
def set_mode (e : EffectEntity) (m : ColorBlindnessMode) : EffectEntity :=
  { e with
    camera := { e.camera with mode := m }
    camera_changed := true }

/-- External mutation `camera.enabled = b` (spec §6 Mutate); a `DerefMut`
write marks the component changed. -/
def set_enabled (e : EffectEntity) (b : Bool) : EffectEntity :=
  { e with
    camera := { e.camera with enabled := b }
    camera_changed := true }

/-- External mutation `camera.mode.cycle()` (spec §6 Mutate); a `DerefMut`
write marks the component changed. -/
def cycle_mode (e : EffectEntity) : EffectEntity :=
  { e with
    camera := { e.camera with mode := e.camera.mode.cycle }
    camera_changed := true }

/-- Sum of the three components of a mix vector (one row of the 3×3
channel-mixing matrix). -/
def rowSum (v : Vec3) : ℚ := v.x + v.y + v.z

/-- Spec §3 DerivedUniform invariant: the post-process uniform equals the
table lookup of the effective mode. -/
def uniform_invariant (e : EffectEntity) : Prop :=
  e.post_process.percentages = (effective_mode e.camera).percentages

/-- Claim C1: for every one of the 9 `ColorBlindnessMode` variants, `percentages(mode)` returns exactly the fixed matrix given in the spec table of section 4.1, reproduced to the stated decimal precision. -/
theorem percentages_matches_spec_table :
    ColorBlindnessMode.percentages .Normal =
      .new (.mk3 1 0 0) (.mk3 0 1 0) (.mk3 0 0 1)
    ∧ ColorBlindnessMode.percentages .Protanopia =
      .new (.mk3 0.56667 0.43333 0) (.mk3 0.55833 0.44167 0) (.mk3 0 0.24167 0.75833)
    ∧ ColorBlindnessMode.percentages .Protanomaly =
      .new (.mk3 0.81667 0.18333 0) (.mk3 0.33333 0.66667 0) (.mk3 0 0.125 0.875)
    ∧ ColorBlindnessMode.percentages .Deuteranopia =
      .new (.mk3 0.625 0.375 0) (.mk3 0.70 0.30 0) (.mk3 0 0.30 0.70)
    ∧ ColorBlindnessMode.percentages .Deuteranomaly =
      .new (.mk3 0.80 0.20 0) (.mk3 0.25833 0.74167 0) (.mk3 0 0.14167 0.85833)
    ∧ ColorBlindnessMode.percentages .Tritanopia =
      .new (.mk3 0.95 0.5 0) (.mk3 0 0.43333 0.56667) (.mk3 0 0.475 0.525)
    ∧ ColorBlindnessMode.percentages .Tritanomaly =
      .new (.mk3 0.96667 0.3333 0) (.mk3 0 0.73333 0.26667) (.mk3 0 0.18333 0.81667)
    ∧ ColorBlindnessMode.percentages .Achromatopsia =
      .new (.mk3 0.299 0.587 0.114) (.mk3 0.299 0.587 0.114) (.mk3 0.299 0.587 0.114)
    ∧ ColorBlindnessMode.percentages .Achromatomaly =
      .new (.mk3 0.618 0.32 0.62) (.mk3 0.163 0.775 0.62) (.mk3 0.163 0.320 0.516) := by
  refine ⟨?_, ?_, ?_, ?_, ?_, ?_, ?_, ?_, ?_⟩ <;>
    simp [ColorBlindnessMode.percentages, ColorBlindnessPercentages.new, Vec3.mk3,
      Vec3.X, Vec3.Y, Vec3.Z] <;> norm_num

/-- Claim C2: for every changed `ColorBlindnessCamera` state, the `update_percentages` rule computes the effective mode as `enabled ? mode : Normal` and sets the derived uniform to its table lookup; with `enabled = false` the derived percentages are those of `Normal` regardless of the stored mode, and with `enabled = true` and mode `Deuteranomaly` the derived uniform is ((.80,.20,0),(.25833,.74167,0),(0,.14167,.85833)). -/
theorem update_rule_effective_mode (cam : ColorBlindnessCamera) (pp : ColorBlindnessPostProcess) :
    (update_percentages ⟨cam, true, pp⟩).post_process.percentages =
      (effective_mode cam).percentages
    ∧ (cam.enabled = false →
        (update_percentages ⟨cam, true, pp⟩).post_process.percentages =
          ColorBlindnessMode.Normal.percentages)
    ∧ (cam.enabled = true → cam.mode = .Deuteranomaly →
        (update_percentages ⟨cam, true, pp⟩).post_process.percentages =
          .new (.mk3 0.80 0.20 0) (.mk3 0.25833 0.74167 0) (.mk3 0 0.14167 0.85833)) := by
  refine ⟨rfl, fun h => ?_, fun h hm => ?_⟩
  · simp [update_percentages, effective_mode, h]
  · simp [update_percentages, effective_mode, h, hm]
    norm_num [ColorBlindnessMode.percentages, ColorBlindnessPercentages.new, Vec3.mk3]

/-- Witness for claim C2 at concrete inputs: a disabled Tritanopia camera derives the Normal percentages, and an enabled Deuteranomaly camera derives the Deuteranomaly percentages. -/
theorem update_rule_effective_mode_witness :
    (update_percentages ⟨⟨.Tritanopia, false⟩, true, ColorBlindnessPostProcess.default⟩).post_process.percentages = ColorBlindnessMode.Normal.percentages
    ∧ (update_percentages ⟨⟨.Deuteranomaly, true⟩, true, ColorBlindnessPostProcess.default⟩).post_process.percentages =
        .new (.mk3 0.80 0.20 0) (.mk3 0.25833 0.74167 0) (.mk3 0 0.14167 0.85833) :=
  ⟨(update_rule_effective_mode ⟨.Tritanopia, false⟩ ColorBlindnessPostProcess.default).2.1 rfl,
   (update_rule_effective_mode ⟨.Deuteranomaly, true⟩ ColorBlindnessPostProcess.default).2.2 rfl rfl⟩

/-- Claim C3: `cycle` follows exactly the single cycle Normal, Protanopia, Protanomaly, Deuteranopia, Deuteranomaly, Tritanopia, Tritanomaly, Achromatopsia, Achromatomaly, and back to Normal; in particular one `cycle()` call starting at Achromatomaly yields Normal. -/
theorem cycle_single_cycle_order :
    ColorBlindnessMode.cycle .Normal = .Protanopia
    ∧ ColorBlindnessMode.cycle .Protanopia = .Protanomaly
    ∧ ColorBlindnessMode.cycle .Protanomaly = .Deuteranopia
    ∧ ColorBlindnessMode.cycle .Deuteranopia = .Deuteranomaly
    ∧ ColorBlindnessMode.cycle .Deuteranomaly = .Tritanopia
    ∧ ColorBlindnessMode.cycle .Tritanopia = .Tritanomaly
    ∧ ColorBlindnessMode.cycle .Tritanomaly = .Achromatopsia
    ∧ ColorBlindnessMode.cycle .Achromatopsia = .Achromatomaly
    ∧ ColorBlindnessMode.cycle .Achromatomaly = .Normal := by
  decide

/-- Claim C4: applying `cycle` 9 times returns the starting mode, for every starting mode, and no smaller positive number of applications returns to the start for any mode (period exactly 9). -/
theorem cycle_period_exactly_nine :
    (∀ m : ColorBlindnessMode, ColorBlindnessMode.cycle^[9] m = m)
    ∧ (∀ m : ColorBlindnessMode, ∀ n, n < 9 → 0 < n →
        ColorBlindnessMode.cycle^[n] m ≠ m) := by
  constructor <;> decide

/-- Witness for claim C4 at a concrete input: `cycle` applied 9 times to Normal returns Normal, and applied 3 times does not. -/
theorem cycle_period_exactly_nine_witness :
    ColorBlindnessMode.cycle^[9] ColorBlindnessMode.Normal = ColorBlindnessMode.Normal
    ∧ ColorBlindnessMode.cycle^[3] ColorBlindnessMode.Normal ≠ ColorBlindnessMode.Normal :=
  ⟨cycle_period_exactly_nine.1 .Normal, cycle_period_exactly_nine.2 .Normal 3 (by decide) (by decide)⟩

/-- Counterexample to claim C5: immediately after a camera entity is created with default values and before any update has run, the derived uniform is the all-zero matrix of `ColorBlindnessPostProcess::default()`, not `percentages(effective_mode)` (the identity matrix of Normal), so the claimed invariant does not hold at creation. -/
theorem spawn_default_violates_uniform_invariant : ¬ uniform_invariant spawn_default := by
  simp [uniform_invariant, spawn_default, effective_mode, ColorBlindnessCamera.default,
    ColorBlindnessPostProcess.default, ColorBlindnessPercentages.default,
    ColorBlindnessMode.default, ColorBlindnessMode.percentages,
    ColorBlindnessPercentages.new, Vec3.ZERO, Vec3.X, Vec3.Y, Vec3.Z]

/-- Amended claim C5: the invariant DerivedUniform = percentages(effective_mode) is established by each run of `update_percentages` on a changed camera and preserved by `update_percentages` when it already holds; since `set_mode`, `set_enabled` and `cycle` all mark the camera changed, the invariant holds again after the update rule runs following any of them. It does not hold at creation before the first update. -/
theorem update_establishes_and_preserves_uniform_invariant (e : EffectEntity) :
    ((uniform_invariant e ∨ e.camera_changed = true) →
      uniform_invariant (update_percentages e))
    ∧ (∀ m, uniform_invariant (update_percentages (set_mode e m)))
    ∧ (∀ b, uniform_invariant (update_percentages (set_enabled e b)))
    ∧ uniform_invariant (update_percentages (cycle_mode e)) := by
  refine ⟨fun h => ?_, fun m => ?_, fun b => ?_, ?_⟩ <;>
    simp [update_percentages, set_mode, set_enabled, cycle_mode, uniform_invariant]
  cases hc : e.camera_changed with
  | true => simp [hc]
  | false =>
      simp [hc]
      rcases h with h | h
      · exact h
      · simp [hc] at h

/-- Witness for amended claim C5: running `update_percentages` on the freshly spawned default entity establishes the invariant. -/
theorem update_establishes_uniform_invariant_witness : uniform_invariant (update_percentages spawn_default) :=
  (update_establishes_and_preserves_uniform_invariant spawn_default).1 (Or.inr rfl)

/-- Amended claim C6: every mix-vector row of `percentages(mode)` sums exactly to 1, except the documented Tritanopia red row (1.45) and Tritanomaly red row (1.29997), and additionally the Achromatomaly rows, whose red and green rows each sum to 1.558 and whose blue row sums to 0.999. -/
theorem row_sums_with_all_deviations :
    (∀ m : ColorBlindnessMode,
      (rowSum (m.percentages).red = 1 ∨ m = .Tritanopia ∨ m = .Tritanomaly ∨ m = .Achromatomaly)
      ∧ (rowSum (m.percentages).green = 1 ∨ m = .Achromatomaly)
      ∧ (rowSum (m.percentages).blue = 1 ∨ m = .Achromatomaly))
    ∧ rowSum (ColorBlindnessMode.percentages .Tritanopia).red = 1.45
    ∧ rowSum (ColorBlindnessMode.percentages .Tritanomaly).red = 1.29997
    ∧ rowSum (ColorBlindnessMode.percentages .Achromatomaly).red = 1.558
    ∧ rowSum (ColorBlindnessMode.percentages .Achromatomaly).green = 1.558
    ∧ rowSum (ColorBlindnessMode.percentages .Achromatomaly).blue = 0.999 := by
  refine ⟨fun m => ?_, ?_, ?_, ?_, ?_, ?_⟩ <;>
    first
      | (cases m <;>
          norm_num [rowSum, ColorBlindnessMode.percentages, ColorBlindnessPercentages.new,
            Vec3.mk3, Vec3.X, Vec3.Y, Vec3.Z])
      | norm_num [rowSum, ColorBlindnessMode.percentages, ColorBlindnessPercentages.new,
          Vec3.mk3]

/-- Counterexample to claim C6: the Achromatomaly red row of `percentages` sums to 1.558, which is not approximately 1 (it is more than 1/2 away), and Achromatomaly is neither Tritanopia nor Tritanomaly, so the claimed list of deviations is incomplete. -/
theorem achromatomaly_red_row_sum_deviates :
    rowSum (ColorBlindnessMode.percentages .Achromatomaly).red = 1.558
    ∧ ¬ |rowSum (ColorBlindnessMode.percentages .Achromatomaly).red - 1| ≤ 1 / 2
    ∧ ColorBlindnessMode.Achromatomaly ≠ .Tritanopia
    ∧ ColorBlindnessMode.Achromatomaly ≠ .Tritanomaly := by
  refine ⟨?_, ?_, by decide, by decide⟩ <;>
    norm_num [abs_le, rowSum, ColorBlindnessMode.percentages,
      ColorBlindnessPercentages.new, Vec3.mk3]

/-- Claim C7: the `update_percentages` rule is idempotent with respect to an unchanged camera state, so a second evaluation with no intervening mutation produces no change in the derived uniform, and the recomputation runs only when the camera has changed since the last evaluation. -/
theorem update_idempotent_and_change_gated (e : EffectEntity) :
    update_percentages (update_percentages e) = update_percentages e
    ∧ (e.camera_changed = false → update_percentages e = e) := by
  constructor
  · cases hc : e.camera_changed <;> simp [update_percentages, hc]
  · intro h; simp [update_percentages, h]

/-- Witness for claim C7 at a concrete input: on an unchanged enabled Deuteranopia entity, `update_percentages` is idempotent and is a no-op. -/
theorem update_idempotent_and_change_gated_witness :
    update_percentages (update_percentages ⟨⟨.Deuteranopia, true⟩, false, ColorBlindnessPostProcess.default⟩) =
      update_percentages ⟨⟨.Deuteranopia, true⟩, false, ColorBlindnessPostProcess.default⟩
    ∧ update_percentages ⟨⟨.Deuteranopia, true⟩, false, ColorBlindnessPostProcess.default⟩ =
      ⟨⟨.Deuteranopia, true⟩, false, ColorBlindnessPostProcess.default⟩ :=
  ⟨(update_idempotent_and_change_gated ⟨⟨.Deuteranopia, true⟩, false, ColorBlindnessPostProcess.default⟩).1,
   (update_idempotent_and_change_gated ⟨⟨.Deuteranopia, true⟩, false, ColorBlindnessPostProcess.default⟩).2 rfl⟩

/-- Claim C8: a `ColorBlindnessCamera` created with default values has mode Normal and enabled false, and the default value of `ColorBlindnessMode` itself is Normal. -/
theorem defaults_normal_disabled :
    ColorBlindnessCamera.default = ⟨.Normal, false⟩
    ∧ ColorBlindnessCamera.default.mode = .Normal
    ∧ ColorBlindnessCamera.default.enabled = false
    ∧ ColorBlindnessMode.default = .Normal := by
  refine ⟨rfl, rfl, rfl, rfl⟩

/-- Claim C9: `percentages` and `cycle` are total over all 9 mode variants with no error cases, `cycle` is a bijection of the mode enumeration, and every sequence of `cycle` applications stays inside the enumeration, so no invalid-mode or invalid-transition state is reachable. -/
theorem percentages_and_cycle_total :
    (∀ m : ColorBlindnessMode, ∃ p, m.percentages = p)
    ∧ (∀ m : ColorBlindnessMode, ∃ m2, m.cycle = m2)
    ∧ Function.Bijective ColorBlindnessMode.cycle
    ∧ (∀ (m : ColorBlindnessMode) (n : ℕ), ∃ m2, ColorBlindnessMode.cycle^[n] m = m2) :=
  ⟨fun m => ⟨_, rfl⟩, fun m => ⟨_, rfl⟩, by decide, fun m n => ⟨_, rfl⟩⟩

/-- Claim C10: a `ColorBlindnessPostProcess` created with default values has all nine percentage coefficients equal to zero, which is not the Normal identity matrix, and no mutation of the camera state (`set_mode`, `set_enabled`, `cycle`) writes the post-process component, so it stays zero until the update rule first runs for that entity. -/
theorem postprocess_default_is_zero_matrix :
    ColorBlindnessPostProcess.default.percentages = ⟨Vec3.ZERO, Vec3.ZERO, Vec3.ZERO⟩
    ∧ ColorBlindnessPostProcess.default.percentages ≠ ColorBlindnessMode.Normal.percentages
    ∧ (∀ (e : EffectEntity) (m : ColorBlindnessMode), (set_mode e m).post_process = e.post_process)
    ∧ (∀ (e : EffectEntity) (b : Bool), (set_enabled e b).post_process = e.post_process)
    ∧ (∀ e : EffectEntity, (cycle_mode e).post_process = e.post_process) := by
  refine ⟨rfl, ?_, fun e m => rfl, fun e b => rfl, fun e => rfl⟩
  simp [ColorBlindnessPostProcess.default, ColorBlindnessPercentages.default,
    ColorBlindnessMode.percentages, ColorBlindnessPercentages.new, Vec3.ZERO,
    Vec3.X, Vec3.Y, Vec3.Z]

end BevyColorBlindness
